import Mathlib

/-!
Verification of the `Trainer` class of `src/train.py` (model_compression).

The trainer is embedded shallowly:

* Python dicts of tensors (`state_dict`s) become association lists
  `List (String × Int)`; the tensor payload is opaque to every claim, so it
  is represented by an `Int` identifier.
* Float losses/accuracies become `ℚ` (their use in the trainer is purely
  order-theoretic: comparison and `max`).
* The external collaborators (model forward/backward, data loaders, wandb)
  are oracles: `run` receives the learning rate, train loss and test
  accuracy of each epoch as functions of the epoch index, matching the fact
  that the control flow of `Trainer.run` never inspects them except to
  compare accuracies.
* Filesystem effects are logged in the state: `writes` records every
  `utils.save_checkpoint` call (path, filename, serialized record) and
  `dirs` records the directories that exist (`os.mkdir`).  `torch.load` is
  an oracle `fs : String → Checkpoint` giving the deserialized content of a
  checkpoint file.
* Python division raising `ZeroDivisionError` is embedded as `Option`:
  `none` is the propagated error.
-/

namespace TrainPy

/-- A Python `state_dict`: an insertion-ordered mapping from parameter names
to (opaque) values. -/
abbrev StateDict := List (String × Int)

/-- Dict membership/lookup (`k in d` / `d[k]`): the first entry with the key. -/
def dictLookup : StateDict → String → Option Int
  | [], _ => none
  | (k, v) :: rest, key => if k = key then some v else dictLookup rest key

/-- The keys of a dict, in order. -/
def dictKeys (d : StateDict) : List String := d.map Prod.fst

/-- Python `d[key] = v`: overwrite in place if the key exists, else append. -/
def dictSet (d : StateDict) (key : String) (v : Int) : StateDict :=
  if (dictLookup d key).isSome then
    d.map (fun kv => if kv.1 = key then (key, v) else kv)
  else
    d ++ [(key, v)]

/-- Python `d.update(other)`: set each entry of `other` in `d`, in order. -/
def dictUpdate : StateDict → StateDict → StateDict
  | d, [] => d
  | d, (k, v) :: rest => dictUpdate (dictSet d k v) rest

/-- The record serialized by `Trainer.save_params` and deserialized by
`torch.load` in `Trainer.load_params`:
`{"state_dict": ..., "optimizer": ..., "epoch": ..., "test_acc": ...}`. -/
structure Checkpoint where
  state_dict : StateDict
  optimizer : StateDict
  epoch : Int
  test_acc : ℚ
  deriving DecidableEq

/-- The SGD optimizer as the trainer sees it: the hyperparameters it is
constructed with (`optim.SGD(..., lr, momentum, weight_decay)`) and its
mutable internal state (`optimizer.state_dict()`); a freshly constructed
optimizer has empty internal state. -/
structure Optimizer where
  lr : ℚ
  momentum : ℚ
  weight_decay : ℚ
  state : StateDict
  deriving DecidableEq

/-- The `WarmupCosineLR` scheduler as constructed in `Trainer.reset`. -/
structure Scheduler where
  warmup_epochs : Int
  total_epochs : Int
  start_lr : ℚ
  peak_lr : ℚ
  deriving DecidableEq

/-- The immutable hyperparameter map `self.config`. -/
structure Config where
  LR : ℚ
  MOMENTUM : ℚ
  WEIGHT_DECAY : ℚ
  WARMUP_EPOCHS : Int
  EPOCHS : Int
  START_LR : ℚ
  STORE_PARAM_BEFORE : Int
  PRUNE_START_FROM : Int
  deriving DecidableEq

/-- One `utils.save_checkpoint(record, path, filename)` call: the file
`path/filename` now holds `record`. -/
structure SavedFile where
  path : String
  filename : String
  ckpt : Checkpoint
  deriving DecidableEq

/-- The mutable state of a `Trainer` instance.  `baseDir` is `dir_prefix`
in the source.  `dirs` and `writes` log the filesystem effects. -/
structure Trainer where
  modelDict : StateDict
  optimizer : Optimizer
  scheduler : Scheduler
  baseDir : String
  model_dir : String
  start_epoch : Int
  best_acc : ℚ
  init_params_path : String
  best_model_path : String
  dirs : List String
  writes : List SavedFile
  deriving DecidableEq

/-- `os.path.join(a, b)` for the shapes used here. -/
def joinPath (a b : String) : String := if a = "" then b else a ++ "/" ++ b

/-- Python `range(a, b)` over integers, as a list. -/
def pyRange (a b : Int) : List Int :=
  (List.range (b - a).toNat).map (fun (i : Nat) => a + (i : Int))

/-- The first argument of `Trainer.initialize_params` (`self.model` or
`self.optimizer` at the two call sites in `load_params`). -/
inductive Target
  | model
  | optim
  deriving DecidableEq

/-- The body of `Trainer.initialize_params` on the model state dict:
`model_dict = self.model.state_dict()`, filter `state_dict` to the keys of
`model_dict`, `model_dict.update(pretrained_dict)`,
`self.model.load_state_dict(model_dict)`. -/
def mergeDict (model_dict state_dict : StateDict) : StateDict :=
  let pretrained_dict :=
    state_dict.filter (fun kv => (dictLookup model_dict kv.1).isSome)
  dictUpdate model_dict pretrained_dict

/-- `Trainer.initialize_params(self, model, state_dict)`.  The source body
never uses the `model` argument (`target` here): it reads and writes
`self.model` on every line, so only `self.model`'s state dict is merged,
whatever object is passed. -/
def initialize_params (s : Trainer) (target : Target) (state_dict : StateDict) :
    Trainer :=
  { s with modelDict := mergeDict s.modelDict state_dict }

/-- `Trainer.save_params(model_path, filename, epoch, test_acc=0.0)`:
serialize `{state_dict, optimizer, epoch, test_acc}` to
`model_path/filename.pth.tar`. -/
def save_params (s : Trainer) (model_path filename : String) (epoch : Int)
    (test_acc : ℚ) : Trainer :=
  { s with writes := s.writes ++
      [{ path := model_path, filename := filename ++ ".pth.tar",
         ckpt := { state_dict := s.modelDict, optimizer := s.optimizer.state,
                   epoch := epoch, test_acc := test_acc } }] }

/-- `Trainer.save_best_params(test_acc, epoch)`: remember whether the new
accuracy strictly beats the best, update the best with `max`, and save a
checkpoint named `str(epoch)` only on strict improvement. -/
def save_best_params (s : Trainer) (test_acc : ℚ) (epoch : Int) : Trainer :=
  let is_best : Bool := decide (s.best_acc < test_acc)
  let s2 := { s with best_acc := max test_acc s.best_acc }
  if is_best then save_params s2 s2.best_model_path (toString epoch) epoch test_acc
  else s2

/-- `Trainer.save_init_params()`: save a checkpoint named `init_weight`
tagged with epoch `STORE_PARAM_BEFORE - 1` to `dir_prefix`, then record its
path in `init_params_path`. -/
def save_init_params (cfg : Config) (s : Trainer) : Trainer :=
  let s2 := save_params s s.baseDir "init_weight" (cfg.STORE_PARAM_BEFORE - 1) 0
  { s2 with init_params_path := joinPath s2.baseDir "init_weight.pth.tar" }

/-- `Trainer.load_params(model_path)`; `checkpt` is the record deserialized
by `torch.load(model_path)`.  The source calls `initialize_params` on the
model state dict and then on the optimizer state dict, and sets
`start_epoch` to the stored epoch plus one. -/
def load_params (s : Trainer) (checkpt : Checkpoint) : Trainer :=
  let s2 := initialize_params s Target.model checkpt.state_dict
  let s3 := initialize_params s2 Target.optim checkpt.optimizer
  { s3 with start_epoch := checkpt.epoch + 1 }

/-- `Trainer.load_init_params(init_params_path)`: `load_params`, then force
`start_epoch` to `config["PRUNE_START_FROM"]`. -/
def load_init_params (cfg : Config) (s : Trainer) (checkpt : Checkpoint) :
    Trainer :=
  let s2 := load_params s checkpt
  { s2 with start_epoch := cfg.PRUNE_START_FROM }

/-- A freshly constructed `optim.SGD(model.parameters(), lr=LR,
momentum=MOMENTUM, weight_decay=WEIGHT_DECAY)`. -/
def freshOptimizer (cfg : Config) : Optimizer :=
  { lr := cfg.LR, momentum := cfg.MOMENTUM, weight_decay := cfg.WEIGHT_DECAY,
    state := [] }

/-- `WarmupCosineLR(WARMUP_EPOCHS, EPOCHS, START_LR, LR)`. -/
def freshScheduler (cfg : Config) : Scheduler :=
  { warmup_epochs := cfg.WARMUP_EPOCHS, total_epochs := cfg.EPOCHS,
    start_lr := cfg.START_LR, peak_lr := cfg.LR }

/-- `Trainer.reset(dir_prefix, model_dir)`: set the directories, zero
`start_epoch` and `best_acc`, rebuild optimizer and scheduler from config,
re-load init params if a path was recorded (`fs` is `torch.load`), compute
`best_model_path` and `os.mkdir` it if it does not exist. -/
def reset (cfg : Config) (fs : String → Checkpoint) (s : Trainer)
    (dp md : String) : Trainer :=
  let s1 := { s with
              baseDir := dp, model_dir := md, start_epoch := 0,
              best_acc := 0, optimizer := freshOptimizer cfg,
              scheduler := freshScheduler cfg }
  let s2 := if s1.init_params_path = "" then s1
            else load_init_params cfg s1 (fs s1.init_params_path)
  let bmp := joinPath dp md
  { s2 with best_model_path := bmp,
            dirs := if bmp ∈ s2.dirs then s2.dirs else s2.dirs ++ [bmp] }

/-- `Trainer.__init__`: the fields are set, `init_params_path` starts empty,
and `reset(dir_prefix, model_dir)` is called. -/
def trainerInit (cfg : Config) (fs : String → Checkpoint)
    (modelDict : StateDict) (dp md : String) (dirs : List String) : Trainer :=
  reset cfg fs
    ({ modelDict := modelDict, optimizer := freshOptimizer cfg,
       scheduler := freshScheduler cfg, baseDir := dp, model_dir := md,
       start_epoch := 0, best_acc := 0, init_params_path := "",
       best_model_path := "", dirs := dirs, writes := [] }) dp md

/-- The epoch indices `range(self.start_epoch, self.config["EPOCHS"])`
iterated by `Trainer.run`. -/
def runEpochs (cfg : Config) (s : Trainer) : List Int :=
  pyRange s.start_epoch cfg.EPOCHS

/-- The scheduler call at the top of the loop body of `Trainer.run`:
`self.lr_scheduler(self.optimizer, epoch)` sets the optimizer's learning
rate to the rate the schedule computes for this epoch (`sched` is the
oracle for the schedule's value). -/
def schedSet (sched : Int → ℚ) (s : Trainer) (epoch : Int) : Trainer :=
  { s with optimizer := { s.optimizer with lr := sched epoch } }

/-- One iteration of the loop in `Trainer.run`: the scheduler sets the
learning rate, one training pass (its loss feeds only logging) and one test
pass happen (`sched`, `trainLoss`, `accs` are the oracles for the external
collaborators), `save_best_params` runs, and the init weights are stored
after this epoch when no init path is recorded and
`STORE_PARAM_BEFORE - 1 == epoch`. -/
def runStep (cfg : Config) (sched trainLoss accs : Int → ℚ) (s : Trainer)
    (epoch : Int) : Trainer :=
  let s1 := schedSet sched s epoch
  let _train_loss := trainLoss epoch
  let test_acc := accs epoch
  let s2 := save_best_params s1 test_acc epoch
  if s2.init_params_path = "" ∧ cfg.STORE_PARAM_BEFORE - 1 = epoch then
    save_init_params cfg s2
  else s2

/-- `Trainer.run(log_data)`: store the init weights up front when no init
path is recorded and `STORE_PARAM_BEFORE == 0`, then fold the epoch loop
over `range(start_epoch, EPOCHS)`. -/
def run (cfg : Config) (sched trainLoss accs : Int → ℚ) (s : Trainer) :
    Trainer :=
  let s1 := if s.init_params_path = "" ∧ cfg.STORE_PARAM_BEFORE = 0 then
              save_init_params cfg s
            else s
  (runEpochs cfg s1).foldl (runStep cfg sched trainLoss accs) s1

/-- `Trainer.train_one_epoch`: the train loader yields one loss per batch
(`losses`); the result is `sum(losses) / len(losses)`, and the division
raises `ZeroDivisionError` (here `none`) when there is no batch. -/
def train_one_epoch (losses : List ℚ) : Option ℚ :=
  if losses.length = 0 then none
  else some (losses.sum / (losses.length : ℚ))

/-- The `(correct, total)` accumulation of `Trainer.test_one_epoch`: each
test batch contributes its number of correct predictions and its number of
labels. -/
def testTotals (batches : List (Nat × Nat)) : Nat × Nat :=
  batches.foldl (fun ct b => (ct.1 + b.1, ct.2 + b.2)) (0, 0)

/-- `Trainer.test_one_epoch`: `100.0 * correct / total`, raising
`ZeroDivisionError` (here `none`) when `total == 0`. -/
def test_one_epoch (batches : List (Nat × Nat)) : Option ℚ :=
  let ct := testTotals batches
  if ct.2 = 0 then none
  else some (100 * (ct.1 : ℚ) / (ct.2 : ℚ))

/-- Whether a logged write is the init-weights checkpoint file of the run
whose `dir_prefix` is `dp`: `save_init_params` writes exactly the file
`dp/init_weight.pth.tar`. -/
def isInitFile (dp : String) (f : SavedFile) : Bool :=
  f.path == dp && f.filename == "init_weight.pth.tar"

/-- How many init-weights checkpoints a state has written under `dp`. -/
def initCount (dp : String) (s : Trainer) : Nat :=
  (s.writes.filter (isInitFile dp)).length

/-! Concrete states used to evaluate the definitions on explicit inputs. -/

/-- A small concrete configuration: one epoch, init snapshot configured for
after epoch 2 (so outside the loop), pruning resumes from epoch 5. -/
def cfgW : Config :=
  { LR := 1, MOMENTUM := 0, WEIGHT_DECAY := 0, WARMUP_EPOCHS := 0,
    EPOCHS := 1, START_LR := 1, STORE_PARAM_BEFORE := 3,
    PRUNE_START_FROM := 5 }

/-- Two epochs, init snapshot configured for after epoch 4 (never reached). -/
def cfgZ : Config := { cfgW with EPOCHS := 2, STORE_PARAM_BEFORE := 5 }

/-- One epoch, init snapshot configured before epoch 0. -/
def cfgO : Config := { cfgW with STORE_PARAM_BEFORE := 0 }

/-- A concrete trainer with one model parameter, a nonzero optimizer
buffer, and no recorded init-params path. -/
def t0 : Trainer :=
  { modelDict := [("w", 1)],
    optimizer := { lr := 1, momentum := 0, weight_decay := 0,
                   state := [("momentum_buffer", 0)] },
    scheduler := freshScheduler cfgW,
    baseDir := "d", model_dir := "m", start_epoch := 0, best_acc := 0,
    init_params_path := "", best_model_path := "d/m", dirs := ["d/m"],
    writes := [] }

/-- The same trainer with a recorded init-params path. -/
def tP : Trainer := { t0 with init_params_path := "p" }

/-- A trainer whose model has parameter keys `b`, `c`, `d`. -/
def tB : Trainer := { t0 with modelDict := [("b", 1), ("c", 2), ("d", 3)] }

/-- A saved state with keys `a`, `b`, `c`, as in the partial-loading
example of the specification. -/
def sdABC : StateDict := [("a", 10), ("b", 20), ("c", 30)]

/-- A checkpoint whose optimizer state differs from `t0`'s. -/
def ckW : Checkpoint :=
  { state_dict := [("w", 5)], optimizer := [("momentum_buffer", 7)],
    epoch := 3, test_acc := 0 }

/-- Constant `torch.load` oracle. -/
def fsW : String → Checkpoint := fun _ => ckW

/-- Constant learning-rate / train-loss oracle. -/
def one : Int → ℚ := fun _ => 1

/-- Test accuracy oracle: always 0 percent. -/
def accZ : Int → ℚ := fun _ => 0

/-- Test accuracy oracle: always 70 percent. -/
def acc70 : Int → ℚ := fun _ => 70

/-- Test accuracy oracle: always 80 percent. -/
def acc80 : Int → ℚ := fun _ => 80

end TrainPy

namespace TrainPy

/-! ## Dictionary lemmas -/

lemma dictLookup_eq_none_iff (d : StateDict) (k : String) :
    dictLookup d k = none ↔ k ∉ dictKeys d := by
  induction d with
  | nil => simp [dictLookup, dictKeys]
  | cons kv rest ih =>
    obtain ⟨k1, v1⟩ := kv
    show (if k1 = k then some v1 else dictLookup rest k) = none ↔
      k ∉ k1 :: dictKeys rest
    rw [List.mem_cons]
    by_cases h : k1 = k
    · subst h
      simp
    · have h2 : ¬ k = k1 := fun hc => h hc.symm
      simp [h, h2, ih]

lemma dictLookup_map_set_self (d : StateDict) (k : String) (v : Int) :
    (dictLookup d k).isSome = true →
    dictLookup (d.map (fun kv => if kv.1 = k then (k, v) else kv)) k = some v := by
  induction d with
  | nil => intro h; simp [dictLookup] at h
  | cons kv rest ih =>
    obtain ⟨k1, v1⟩ := kv
    intro h
    show dictLookup
      ((if k1 = k then (k, v) else (k1, v1)) ::
        rest.map (fun kv => if kv.1 = k then (k, v) else kv)) k = some v
    by_cases e : k1 = k
    · subst e
      rw [if_pos rfl]
      show (if k1 = k1 then some v
        else dictLookup (rest.map (fun kv => if kv.1 = k1 then (k1, v) else kv)) k1) =
          some v
      rw [if_pos rfl]
    · rw [if_neg e]
      show (if k1 = k then some v1
        else dictLookup (rest.map (fun kv => if kv.1 = k then (k, v) else kv)) k) =
          some v
      rw [if_neg e]
      have h2 : (dictLookup rest k).isSome = true := by
        have : dictLookup ((k1, v1) :: rest) k = dictLookup rest k := by
          show (if k1 = k then some v1 else dictLookup rest k) = dictLookup rest k
          rw [if_neg e]
        rw [this] at h
        exact h
      exact ih h2

lemma dictLookup_map_set_ne (d : StateDict) (k : String) (v : Int)
    (k2 : String) (h : k2 ≠ k) :
    dictLookup (d.map (fun kv => if kv.1 = k then (k, v) else kv)) k2 =
      dictLookup d k2 := by
  induction d with
  | nil => rfl
  | cons kv rest ih =>
    obtain ⟨k1, v1⟩ := kv
    show dictLookup
      ((if k1 = k then (k, v) else (k1, v1)) ::
        rest.map (fun kv => if kv.1 = k then (k, v) else kv)) k2 =
      (if k1 = k2 then some v1 else dictLookup rest k2)
    by_cases e : k1 = k
    · subst e
      have hne : ¬ k1 = k2 := fun hc => h hc.symm
      simp only [if_pos rfl]
      show (if k1 = k2 then some v
        else dictLookup (rest.map (fun kv => if kv.1 = k1 then (k1, v) else kv)) k2) =
          (if k1 = k2 then some v1 else dictLookup rest k2)
      rw [if_neg hne, if_neg hne, ih]
    · rw [if_neg e]
      show (if k1 = k2 then some v1
        else dictLookup (rest.map (fun kv => if kv.1 = k then (k, v) else kv)) k2) =
          (if k1 = k2 then some v1 else dictLookup rest k2)
      by_cases e2 : k1 = k2
      · rw [if_pos e2, if_pos e2]
      · rw [if_neg e2, if_neg e2, ih]

lemma dictLookup_append_single_self (d : StateDict) (k : String) (v : Int) :
    dictLookup d k = none → dictLookup (d ++ [(k, v)]) k = some v := by
  induction d with
  | nil => intro _; simp [dictLookup]
  | cons kv rest ih =>
    obtain ⟨k1, v1⟩ := kv
    intro h
    by_cases e : k1 = k
    · simp [dictLookup, e] at h
    · simp only [dictLookup, e, if_false] at h
      simpa [dictLookup, e] using ih h

lemma dictLookup_append_single_ne (d : StateDict) (k : String) (v : Int)
    (k2 : String) (h : k2 ≠ k) :
    dictLookup (d ++ [(k, v)]) k2 = dictLookup d k2 := by
  induction d with
  | nil =>
    have hne : ¬ k = k2 := fun hc => h hc.symm
    show (if k = k2 then some v else dictLookup [] k2) = dictLookup [] k2
    rw [if_neg hne]
  | cons kv rest ih =>
    obtain ⟨k1, v1⟩ := kv
    show (if k1 = k2 then some v1 else dictLookup (rest ++ [(k, v)]) k2) =
      (if k1 = k2 then some v1 else dictLookup rest k2)
    by_cases e : k1 = k2
    · rw [if_pos e, if_pos e]
    · rw [if_neg e, if_neg e, ih]

lemma dictLookup_dictSet_self (d : StateDict) (k : String) (v : Int) :
    dictLookup (dictSet d k v) k = some v := by
  unfold dictSet
  split
  · exact dictLookup_map_set_self d k v (by assumption)
  · apply dictLookup_append_single_self
    rcases hl : dictLookup d k with _ | w
    · rfl
    · exfalso; rename_i hns; rw [hl] at hns; simp at hns

lemma dictLookup_dictSet_ne (d : StateDict) (k : String) (v : Int)
    (k2 : String) (h : k2 ≠ k) :
    dictLookup (dictSet d k v) k2 = dictLookup d k2 := by
  unfold dictSet
  split
  · exact dictLookup_map_set_ne d k v k2 h
  · exact dictLookup_append_single_ne d k v k2 h

lemma dictLookup_dictUpdate_of_none (u : StateDict) (k : String) :
    dictLookup u k = none →
    ∀ d, dictLookup (dictUpdate d u) k = dictLookup d k := by
  induction u with
  | nil => intro _ d; rfl
  | cons kv rest ih =>
    obtain ⟨k1, v1⟩ := kv
    intro h d
    have e : k1 ≠ k := by
      intro hc; rw [hc] at h; simp [dictLookup] at h
    simp only [dictLookup, e, if_false] at h
    rw [show dictUpdate d ((k1, v1) :: rest) = dictUpdate (dictSet d k1 v1) rest
          from rfl,
        ih h (dictSet d k1 v1), dictLookup_dictSet_ne d k1 v1 k fun hc => e hc.symm]

lemma dictLookup_dictUpdate_of_some (u : StateDict) (k : String) (v : Int) :
    (dictKeys u).Nodup → dictLookup u k = some v →
    ∀ d, dictLookup (dictUpdate d u) k = some v := by
  induction u with
  | nil => intro _ h _; simp [dictLookup] at h
  | cons kv rest ih =>
    obtain ⟨k1, v1⟩ := kv
    intro hn h d
    rw [show dictUpdate d ((k1, v1) :: rest) = dictUpdate (dictSet d k1 v1) rest
          from rfl]
    have hcons : (k1 :: dictKeys rest).Nodup := hn
    rw [List.nodup_cons] at hcons
    by_cases e : k1 = k
    · subst e
      have hv : v1 = v := by simpa [dictLookup] using h
      subst hv
      have hrest : dictLookup rest k1 = none := by
        rw [dictLookup_eq_none_iff]
        exact hcons.1
      rw [dictLookup_dictUpdate_of_none rest k1 hrest (dictSet d k1 v1),
        dictLookup_dictSet_self]
    · have h2 : dictLookup rest k = some v := by simpa [dictLookup, e] using h
      exact ih hcons.2 h2 (dictSet d k1 v1)

lemma dictLookup_filter_isSome (S M : StateDict) (k : String) (v : Int) :
    dictLookup S k = some v → (dictLookup M k).isSome = true →
    dictLookup (S.filter (fun kv => (dictLookup M kv.1).isSome)) k = some v := by
  induction S with
  | nil => intro h _; simp [dictLookup] at h
  | cons kv rest ih =>
    obtain ⟨k1, v1⟩ := kv
    intro h hM
    rw [List.filter_cons]
    by_cases e : k1 = k
    · subst e
      have hv : v1 = v := by simpa [dictLookup] using h
      subst hv
      simp only [hM, if_true]
      simp [dictLookup]
    · have h2 : dictLookup rest k = some v := by simpa [dictLookup, e] using h
      by_cases hp : (dictLookup M k1).isSome = true
      · simp only [hp, if_true]
        simpa [dictLookup, e] using ih h2 hM
      · simp only [hp, if_false]
        exact ih h2 hM

lemma dictLookup_filter_of_none (S : StateDict) (p : String × Int → Bool)
    (k : String) :
    dictLookup S k = none → dictLookup (S.filter p) k = none := by
  induction S with
  | nil => intro _; rfl
  | cons kv rest ih =>
    obtain ⟨k1, v1⟩ := kv
    intro h
    have e : k1 ≠ k := by
      intro hc; rw [hc] at h; simp [dictLookup] at h
    simp only [dictLookup, e, if_false] at h
    rw [List.filter_cons]
    by_cases hp : p (k1, v1) = true
    · simp only [hp, if_true]
      simpa [dictLookup, e] using ih h
    · simp only [hp, if_false]
      exact ih h

lemma dictLookup_filter_isSome_none (S M : StateDict) (k : String) :
    dictLookup M k = none →
    dictLookup (S.filter (fun kv => (dictLookup M kv.1).isSome)) k = none := by
  induction S with
  | nil => intro _; rfl
  | cons kv rest ih =>
    obtain ⟨k1, v1⟩ := kv
    intro h
    rw [List.filter_cons]
    by_cases e : k1 = k
    · subst e
      simp only [h, Option.isSome_none, Bool.false_eq_true, if_false]
      exact ih h
    · by_cases hp : (dictLookup M k1).isSome = true
      · simp only [hp, if_true]
        simpa [dictLookup, e] using ih h
      · simp only [hp, if_false]
        exact ih h

lemma dictKeys_filter_nodup (S : StateDict) (p : String × Int → Bool)
    (h : (dictKeys S).Nodup) : (dictKeys (S.filter p)).Nodup :=
  h.sublist ((List.filter_sublist S).map Prod.fst)

/-- Claim C2: partial parameter loading.  For a saved map `sd` (with
dict-like keys) merged into the current model map by
`initialize_params`, every key present in both takes the saved value,
every key of the model absent from `sd` keeps its prior value, and every
key absent from the model stays absent (keys of `sd` not in the model are
discarded); the operation is total, so mismatched keys never raise. -/
theorem initialize_params_partial_loading (s : Trainer) (sd : StateDict)
    (hS : (dictKeys sd).Nodup) :
    (∀ k v, (dictLookup s.modelDict k).isSome = true →
        dictLookup sd k = some v →
        dictLookup (initialize_params s Target.model sd).modelDict k = some v)
    ∧ (∀ k, dictLookup sd k = none →
        dictLookup (initialize_params s Target.model sd).modelDict k =
          dictLookup s.modelDict k)
    ∧ (∀ k, dictLookup s.modelDict k = none →
        dictLookup (initialize_params s Target.model sd).modelDict k = none) := by
  refine ⟨?_, ?_, ?_⟩
  · intro k v hM hsd
    show dictLookup (mergeDict s.modelDict sd) k = some v
    unfold mergeDict
    exact dictLookup_dictUpdate_of_some _ k v
      (dictKeys_filter_nodup sd _ hS)
      (dictLookup_filter_isSome sd s.modelDict k v hsd hM) s.modelDict
  · intro k hnone
    show dictLookup (mergeDict s.modelDict sd) k = dictLookup s.modelDict k
    unfold mergeDict
    exact dictLookup_dictUpdate_of_none _ k
      (dictLookup_filter_of_none sd _ k hnone) _
  · intro k hnone
    show dictLookup (mergeDict s.modelDict sd) k = none
    unfold mergeDict
    rw [dictLookup_dictUpdate_of_none _ k
      (dictLookup_filter_isSome_none sd s.modelDict k hnone) _]
    exact hnone

/-- Witness for claim C2: the specification's own example, saved keys
`{a, b, c}` into model keys `{b, c, d}`: `b` takes the saved value. -/
theorem initialize_params_partial_loading_witness :
    (dictKeys sdABC).Nodup ∧
    dictLookup (initialize_params tB Target.model sdABC).modelDict "b" =
      some 20 :=
  ⟨by decide,
   (initialize_params_partial_loading tB sdABC (by decide)).1 "b" 20
     (by decide) (by decide)⟩

end TrainPy

namespace TrainPy

/-! ## Range and path lemmas -/

lemma mem_pyRange {x a b : Int} : x ∈ pyRange a b ↔ a ≤ x ∧ x < b := by
  simp only [pyRange, List.mem_map, List.mem_range]
  constructor
  · rintro ⟨i, hi, rfl⟩
    omega
  · rintro ⟨h1, h2⟩
    exact ⟨(x - a).toNat, by omega, by omega⟩

lemma pyRange_head (a b : Int) :
    (pyRange a b).head? = if a < b then some a else none := by
  unfold pyRange
  rcases h : (b - a).toNat with _ | n
  · have hab : ¬ a < b := by omega
    simp [hab]
  · have hab : a < b := by omega
    rw [List.range_succ_eq_map]
    simp [hab]

lemma joinPath_ne_empty (a b : String) (hb : b ≠ "") : joinPath a b ≠ "" := by
  unfold joinPath
  split
  · exact hb
  · intro h
    have hc := congrArg String.length h
    rw [String.length_append, String.length_append] at hc
    have h1 : ("/" : String).length = 1 := rfl
    have h0 : ("" : String).length = 0 := rfl
    rw [h1, h0] at hc
    omega

/-! ## Field behavior of the save and load operations -/

lemma save_best_params_best_acc (s : Trainer) (acc : ℚ) (e : Int) :
    (save_best_params s acc e).best_acc = max acc s.best_acc := by
  simp only [save_best_params]
  split <;> rfl

lemma save_best_params_baseDir (s : Trainer) (acc : ℚ) (e : Int) :
    (save_best_params s acc e).baseDir = s.baseDir := by
  simp only [save_best_params]
  split <;> rfl

lemma save_best_params_bmp (s : Trainer) (acc : ℚ) (e : Int) :
    (save_best_params s acc e).best_model_path = s.best_model_path := by
  simp only [save_best_params]
  split <;> rfl

lemma save_best_params_path (s : Trainer) (acc : ℚ) (e : Int) :
    (save_best_params s acc e).init_params_path = s.init_params_path := by
  simp only [save_best_params]
  split <;> rfl

lemma save_best_params_start_epoch (s : Trainer) (acc : ℚ) (e : Int) :
    (save_best_params s acc e).start_epoch = s.start_epoch := by
  simp only [save_best_params]
  split <;> rfl

lemma save_best_params_writes (s : Trainer) (acc : ℚ) (e : Int) :
    (save_best_params s acc e).writes =
      (if s.best_acc < acc then
        s.writes ++
          [{ path := s.best_model_path, filename := toString e ++ ".pth.tar",
             ckpt := { state_dict := s.modelDict,
                       optimizer := s.optimizer.state,
                       epoch := e, test_acc := acc } }]
       else s.writes) := by
  simp only [save_best_params, save_params]
  by_cases h : s.best_acc < acc <;> simp [h]

/-- Claim C5: a best-model checkpoint file is written by `save_best_params`
if and only if the epoch's test accuracy strictly exceeds the best accuracy
recorded before; on a tie or worse nothing is written and the previous best
is kept (`max acc best = best` then). -/
theorem save_best_params_writes_iff (s : Trainer) (acc : ℚ) (e : Int) :
    (save_best_params s acc e).writes =
      (if s.best_acc < acc then
        s.writes ++
          [{ path := s.best_model_path, filename := toString e ++ ".pth.tar",
             ckpt := { state_dict := s.modelDict,
                       optimizer := s.optimizer.state,
                       epoch := e, test_acc := acc } }]
       else s.writes)
    ∧ (save_best_params s acc e).best_acc = max acc s.best_acc :=
  ⟨save_best_params_writes s acc e, save_best_params_best_acc s acc e⟩

/-- Claim C1 (the code bug): `load_params` does not restore the optimizer
state.  At this concrete input the checkpoint stores optimizer state
`momentum_buffer = 7` while the trainer's optimizer holds
`momentum_buffer = 0`; after `load_params` the optimizer state is unchanged
and differs from the checkpoint's, even though the model parameters were
loaded (`initialize_params` ignores its `model` argument and always merges
into `self.model`). -/
theorem load_params_ignores_checkpoint_optimizer_state :
    (load_params t0 ckW).optimizer.state = t0.optimizer.state
    ∧ (load_params t0 ckW).optimizer.state ≠ ckW.optimizer
    ∧ (load_params t0 ckW).modelDict = ckW.state_dict := by decide

/-- Claim C6: after loading a checkpoint with stored epoch `e`, the resume
epoch is `e + 1`, and the epoch loop of a subsequent `run` iterates
`range(e + 1, EPOCHS)`: it starts at `e + 1` whenever the range is
nonempty, and never contains `e` itself. -/
theorem load_params_resumes_at_saved_epoch_plus_one (cfg : Config)
    (s : Trainer) (ck : Checkpoint) :
    (load_params s ck).start_epoch = ck.epoch + 1
    ∧ runEpochs cfg (load_params s ck) = pyRange (ck.epoch + 1) cfg.EPOCHS
    ∧ (runEpochs cfg (load_params s ck)).head? =
        (if ck.epoch + 1 < cfg.EPOCHS then some (ck.epoch + 1) else none)
    ∧ ck.epoch ∉ runEpochs cfg (load_params s ck) := by
  refine ⟨rfl, rfl, ?_, ?_⟩
  · show (pyRange (ck.epoch + 1) cfg.EPOCHS).head? = _
    exact pyRange_head (ck.epoch + 1) cfg.EPOCHS
  · show ck.epoch ∉ pyRange (ck.epoch + 1) cfg.EPOCHS
    intro hmem
    rw [mem_pyRange] at hmem
    omega

/-- Claim C7: `load_init_params` sets the resume epoch to the configured
`PRUNE_START_FROM`, whatever epoch the checkpoint stores. -/
theorem load_init_params_forces_prune_start (cfg : Config) (s : Trainer)
    (ck : Checkpoint) :
    (load_init_params cfg s ck).start_epoch = cfg.PRUNE_START_FROM := rfl

/-- Claim C8: `train_one_epoch` fails (the division raises, embedded as
`none`) exactly when the train iterator yields zero batches, and
`test_one_epoch` fails exactly when the total number of labels counted is
zero — in particular when the test iterator yields zero batches.  The
`Option` result is the uncaught error propagating to the caller. -/
theorem one_epoch_empty_iterator_division_error :
    (∀ losses : List ℚ, train_one_epoch losses = none ↔ losses = [])
    ∧ (∀ batches : List (Nat × Nat),
        test_one_epoch batches = none ↔ (testTotals batches).2 = 0)
    ∧ test_one_epoch [] = none := by
  refine ⟨?_, ?_, rfl⟩
  · intro l
    constructor
    · intro h
      by_cases h0 : l.length = 0
      · exact List.length_eq_zero.mp h0
      · simp [train_one_epoch, h0] at h
    · intro h
      subst h
      rfl
  · intro b
    unfold test_one_epoch
    by_cases h : (testTotals b).2 = 0 <;> simp [h]

end TrainPy

namespace TrainPy

/-! ## Field behavior of save_init_params and the run loop -/

lemma save_init_params_baseDir (cfg : Config) (s : Trainer) :
    (save_init_params cfg s).baseDir = s.baseDir := rfl

lemma save_init_params_bmp (cfg : Config) (s : Trainer) :
    (save_init_params cfg s).best_model_path = s.best_model_path := rfl

lemma save_init_params_best_acc (cfg : Config) (s : Trainer) :
    (save_init_params cfg s).best_acc = s.best_acc := rfl

lemma save_init_params_start_epoch (cfg : Config) (s : Trainer) :
    (save_init_params cfg s).start_epoch = s.start_epoch := rfl

lemma save_init_params_path (cfg : Config) (s : Trainer) :
    (save_init_params cfg s).init_params_path =
      joinPath s.baseDir "init_weight.pth.tar" := rfl

lemma length_filter_append_single (p : SavedFile → Bool) (w : List SavedFile)
    (f : SavedFile) :
    ((w ++ [f]).filter p).length =
      (w.filter p).length + (if p f then 1 else 0) := by
  rw [List.filter_append, List.length_append]
  by_cases h : p f
  · simp [List.filter_cons, h]
  · simp [List.filter_cons, h]

lemma initCount_save_best (dp : String) (s : Trainer) (acc : ℚ) (e : Int)
    (h : s.best_model_path ≠ dp) :
    initCount dp (save_best_params s acc e) = initCount dp s := by
  unfold initCount
  rw [save_best_params_writes]
  by_cases hb : s.best_acc < acc
  · rw [if_pos hb, length_filter_append_single]
    have hf : isInitFile dp
        { path := s.best_model_path, filename := toString e ++ ".pth.tar",
          ckpt := { state_dict := s.modelDict, optimizer := s.optimizer.state,
                    epoch := e, test_acc := acc } } = false := by
      unfold isInitFile
      simp [h]
    rw [hf]
    simp
  · rw [if_neg hb]

lemma initCount_save_init (cfg : Config) (dp : String) (s : Trainer)
    (h : s.baseDir = dp) :
    initCount dp (save_init_params cfg s) = initCount dp s + 1 := by
  subst h
  unfold initCount save_init_params save_params
  show ((s.writes ++
      [({ path := s.baseDir, filename := "init_weight" ++ ".pth.tar",
          ckpt := { state_dict := s.modelDict, optimizer := s.optimizer.state,
                    epoch := cfg.STORE_PARAM_BEFORE - 1, test_acc := 0 } } :
        SavedFile)]).filter
        (isInitFile s.baseDir)).length =
      (s.writes.filter (isInitFile s.baseDir)).length + 1
  rw [length_filter_append_single]
  have hsf : ("init_weight" ++ ".pth.tar" : String) = "init_weight.pth.tar" := by decide
  have hf : isInitFile s.baseDir
      { path := s.baseDir, filename := "init_weight" ++ ".pth.tar",
        ckpt := { state_dict := s.modelDict, optimizer := s.optimizer.state,
                  epoch := cfg.STORE_PARAM_BEFORE - 1, test_acc := 0 } } = true := by
    unfold isInitFile
    simp [hsf]
  rw [hf]
  simp

lemma schedSet_baseDir (sc : Int → ℚ) (s : Trainer) (e : Int) :
    (schedSet sc s e).baseDir = s.baseDir := rfl

lemma schedSet_bmp (sc : Int → ℚ) (s : Trainer) (e : Int) :
    (schedSet sc s e).best_model_path = s.best_model_path := rfl

lemma schedSet_best_acc (sc : Int → ℚ) (s : Trainer) (e : Int) :
    (schedSet sc s e).best_acc = s.best_acc := rfl

lemma schedSet_path (sc : Int → ℚ) (s : Trainer) (e : Int) :
    (schedSet sc s e).init_params_path = s.init_params_path := rfl

lemma initCount_schedSet (dp : String) (sc : Int → ℚ) (s : Trainer) (e : Int) :
    initCount dp (schedSet sc s e) = initCount dp s := rfl

lemma runStep_baseDir (cfg : Config) (sc tl ac : Int → ℚ) (s : Trainer)
    (e : Int) :
    (runStep cfg sc tl ac s e).baseDir = s.baseDir := by
  simp only [runStep]
  split
  · exact (save_init_params_baseDir cfg _).trans (save_best_params_baseDir _ _ _)
  · exact save_best_params_baseDir _ _ _

lemma runStep_bmp (cfg : Config) (sc tl ac : Int → ℚ) (s : Trainer) (e : Int) :
    (runStep cfg sc tl ac s e).best_model_path = s.best_model_path := by
  simp only [runStep]
  split
  · exact (save_init_params_bmp cfg _).trans (save_best_params_bmp _ _ _)
  · exact save_best_params_bmp _ _ _

lemma runStep_best_acc (cfg : Config) (sc tl ac : Int → ℚ) (s : Trainer)
    (e : Int) :
    (runStep cfg sc tl ac s e).best_acc = max (ac e) s.best_acc := by
  simp only [runStep]
  split
  · exact (save_init_params_best_acc cfg _).trans (save_best_params_best_acc _ _ _)
  · exact save_best_params_best_acc _ _ _

lemma runStep_path (cfg : Config) (sc tl ac : Int → ℚ) (s : Trainer) (e : Int) :
    (runStep cfg sc tl ac s e).init_params_path =
      (if s.init_params_path = "" ∧ cfg.STORE_PARAM_BEFORE - 1 = e then
        joinPath s.baseDir "init_weight.pth.tar"
       else s.init_params_path) := by
  simp only [runStep, save_best_params_path, schedSet_path]
  split
  · rw [save_init_params_path, save_best_params_baseDir, schedSet_baseDir]
  · rw [save_best_params_path, schedSet_path]

lemma runStep_initCount (cfg : Config) (sc tl ac : Int → ℚ) (dp : String)
    (s : Trainer) (e : Int) (hbmp : s.best_model_path ≠ dp)
    (hdp : s.baseDir = dp) :
    initCount dp (runStep cfg sc tl ac s e) =
      initCount dp s +
        (if s.init_params_path = "" ∧ cfg.STORE_PARAM_BEFORE - 1 = e then 1
         else 0) := by
  simp only [runStep, save_best_params_path, schedSet_path]
  split
  · rw [initCount_save_init cfg dp _
        (by rw [save_best_params_baseDir, schedSet_baseDir]; exact hdp),
      initCount_save_best dp (schedSet sc s e) (ac e) e
        (by rw [schedSet_bmp]; exact hbmp),
      initCount_schedSet]
  · rw [initCount_save_best dp (schedSet sc s e) (ac e) e
        (by rw [schedSet_bmp]; exact hbmp),
      initCount_schedSet]
    simp

/-! ## The epoch loop -/

lemma foldl_runStep_nonempty (cfg : Config) (sc tl ac : Int → ℚ) (dp : String) :
    ∀ (L : List Int) (s : Trainer), s.baseDir = dp → s.best_model_path ≠ dp →
      s.init_params_path ≠ "" →
      (L.foldl (runStep cfg sc tl ac) s).init_params_path = s.init_params_path
      ∧ initCount dp (L.foldl (runStep cfg sc tl ac) s) = initCount dp s
      ∧ (L.foldl (runStep cfg sc tl ac) s).baseDir = dp
      ∧ (L.foldl (runStep cfg sc tl ac) s).best_model_path =
          s.best_model_path := by
  intro L
  induction L with
  | nil => intro s h1 h2 h3; exact ⟨rfl, rfl, h1, rfl⟩
  | cons e L ih =>
    intro s h1 h2 h3
    rw [List.foldl_cons]
    have hcond : ¬ (s.init_params_path = "" ∧ cfg.STORE_PARAM_BEFORE - 1 = e) :=
      fun hc => h3 hc.1
    have hpath : (runStep cfg sc tl ac s e).init_params_path =
        s.init_params_path := by
      rw [runStep_path, if_neg hcond]
    have hbd : (runStep cfg sc tl ac s e).baseDir = dp := by
      rw [runStep_baseDir]; exact h1
    have hbmp2 : (runStep cfg sc tl ac s e).best_model_path = s.best_model_path :=
      runStep_bmp cfg sc tl ac s e
    have hcount : initCount dp (runStep cfg sc tl ac s e) = initCount dp s := by
      rw [runStep_initCount cfg sc tl ac dp s e h2 h1, if_neg hcond, Nat.add_zero]
    obtain ⟨p1, p2, p3, p4⟩ := ih (runStep cfg sc tl ac s e) hbd
      (by rw [hbmp2]; exact h2) (by rw [hpath]; exact h3)
    exact ⟨p1.trans hpath, p2.trans hcount, p3, p4.trans hbmp2⟩

lemma foldl_runStep_empty (cfg : Config) (sc tl ac : Int → ℚ) (dp : String) :
    ∀ (L : List Int) (s : Trainer), s.baseDir = dp → s.best_model_path ≠ dp →
      s.init_params_path = "" →
      initCount dp (L.foldl (runStep cfg sc tl ac) s) =
        initCount dp s +
          (if cfg.STORE_PARAM_BEFORE - 1 ∈ L then 1 else 0) := by
  intro L
  induction L with
  | nil => intro s h1 h2 h3; simp
  | cons e L ih =>
    intro s h1 h2 h3
    rw [List.foldl_cons]
    have hbd : (runStep cfg sc tl ac s e).baseDir = dp := by
      rw [runStep_baseDir]; exact h1
    have hbmp2 : (runStep cfg sc tl ac s e).best_model_path ≠ dp := by
      rw [runStep_bmp]; exact h2
    by_cases he : cfg.STORE_PARAM_BEFORE - 1 = e
    · have hcond : s.init_params_path = "" ∧ cfg.STORE_PARAM_BEFORE - 1 = e :=
        ⟨h3, he⟩
      have hne : (runStep cfg sc tl ac s e).init_params_path ≠ "" := by
        rw [runStep_path, if_pos hcond, h1]
        exact joinPath_ne_empty dp "init_weight.pth.tar" (by decide)
      have hcount : initCount dp (runStep cfg sc tl ac s e) =
          initCount dp s + 1 := by
        rw [runStep_initCount cfg sc tl ac dp s e h2 h1, if_pos hcond]
      obtain ⟨_, p2, _, _⟩ :=
        foldl_runStep_nonempty cfg sc tl ac dp L _ hbd hbmp2 hne
      rw [p2, hcount, if_pos (List.mem_cons.mpr (Or.inl he))]
    · have hcond : ¬ (s.init_params_path = "" ∧
          cfg.STORE_PARAM_BEFORE - 1 = e) := fun hc => he hc.2
      have hpath : (runStep cfg sc tl ac s e).init_params_path = "" := by
        rw [runStep_path, if_neg hcond]; exact h3
      have hcount : initCount dp (runStep cfg sc tl ac s e) = initCount dp s := by
        rw [runStep_initCount cfg sc tl ac dp s e h2 h1, if_neg hcond, Nat.add_zero]
      rw [ih _ hbd hbmp2 hpath, hcount]
      simp [List.mem_cons, he]

lemma foldl_runStep_best_acc (cfg : Config) (sc tl ac : Int → ℚ) :
    ∀ (L : List Int) (s : Trainer),
      (L.foldl (runStep cfg sc tl ac) s).best_acc =
        (L.map ac).foldl max s.best_acc := by
  intro L
  induction L with
  | nil => intro s; rfl
  | cons e L ih =>
    intro s
    rw [List.foldl_cons, List.map_cons, List.foldl_cons, ih]
    congr 1
    rw [runStep_best_acc, max_comm]

end TrainPy

namespace TrainPy

/-! ## Closed forms of reset -/

lemma runEpochs_save_init (cfg : Config) (s : Trainer) :
    runEpochs cfg (save_init_params cfg s) = runEpochs cfg s := by
  unfold runEpochs
  rw [save_init_params_start_epoch]

lemma reset_of_empty (cfg : Config) (fs : String → Checkpoint) (s : Trainer)
    (dp md : String) (h : s.init_params_path = "") :
    reset cfg fs s dp md =
      { s with
        baseDir := dp, model_dir := md, start_epoch := 0, best_acc := 0,
        optimizer := freshOptimizer cfg, scheduler := freshScheduler cfg,
        best_model_path := joinPath dp md,
        dirs := if joinPath dp md ∈ s.dirs then s.dirs
                else s.dirs ++ [joinPath dp md] } := by
  unfold reset
  dsimp only
  rw [if_pos h]

lemma reset_of_nonempty (cfg : Config) (fs : String → Checkpoint) (s : Trainer)
    (dp md : String) (h : ¬ s.init_params_path = "") :
    reset cfg fs s dp md =
      { s with
        baseDir := dp, model_dir := md,
        start_epoch := cfg.PRUNE_START_FROM, best_acc := 0,
        optimizer := freshOptimizer cfg, scheduler := freshScheduler cfg,
        modelDict :=
          mergeDict (mergeDict s.modelDict (fs s.init_params_path).state_dict)
            (fs s.init_params_path).optimizer,
        best_model_path := joinPath dp md,
        dirs := if joinPath dp md ∈ s.dirs then s.dirs
                else s.dirs ++ [joinPath dp md] } := by
  unfold reset
  dsimp only
  rw [if_neg h]
  rfl

lemma reset_path (cfg : Config) (fs : String → Checkpoint) (s : Trainer)
    (dp md : String) :
    (reset cfg fs s dp md).init_params_path = s.init_params_path := by
  by_cases h : s.init_params_path = ""
  · rw [reset_of_empty cfg fs s dp md h]
  · rw [reset_of_nonempty cfg fs s dp md h]

/-! ## The run and reset claims -/

/-- Claim C9 (amended): after `reset`, the best accuracy is 0, the
optimizer and scheduler are rebuilt from config, the recorded init-params
path is kept and its checkpoint re-merged into the model when one was
recorded, and the output directory exists; the start epoch is 0 only when
no init-params path was recorded — when one was, the re-load forces it to
`PRUNE_START_FROM`. -/
theorem reset_reinitializes (cfg : Config) (fs : String → Checkpoint)
    (s : Trainer) (dp md : String) :
    (reset cfg fs s dp md).best_acc = 0
    ∧ (reset cfg fs s dp md).start_epoch =
        (if s.init_params_path = "" then 0 else cfg.PRUNE_START_FROM)
    ∧ (reset cfg fs s dp md).optimizer = freshOptimizer cfg
    ∧ (reset cfg fs s dp md).scheduler = freshScheduler cfg
    ∧ (reset cfg fs s dp md).init_params_path = s.init_params_path
    ∧ (reset cfg fs s dp md).modelDict =
        (if s.init_params_path = "" then s.modelDict
         else mergeDict
                (mergeDict s.modelDict (fs s.init_params_path).state_dict)
                (fs s.init_params_path).optimizer)
    ∧ (reset cfg fs s dp md).best_model_path = joinPath dp md
    ∧ joinPath dp md ∈ (reset cfg fs s dp md).dirs := by
  by_cases h : s.init_params_path = ""
  · rw [reset_of_empty cfg fs s dp md h, if_pos h, if_pos h]
    refine ⟨rfl, rfl, rfl, rfl, rfl, rfl, rfl, ?_⟩
    show joinPath dp md ∈
      (if joinPath dp md ∈ s.dirs then s.dirs else s.dirs ++ [joinPath dp md])
    by_cases hm : joinPath dp md ∈ s.dirs
    · rw [if_pos hm]; exact hm
    · rw [if_neg hm]; simp
  · rw [reset_of_nonempty cfg fs s dp md h, if_neg h, if_neg h]
    refine ⟨rfl, rfl, rfl, rfl, rfl, rfl, rfl, ?_⟩
    show joinPath dp md ∈
      (if joinPath dp md ∈ s.dirs then s.dirs else s.dirs ++ [joinPath dp md])
    by_cases hm : joinPath dp md ∈ s.dirs
    · rw [if_pos hm]; exact hm
    · rw [if_neg hm]; simp

/-- Claim C9 counterexample: with a recorded init-params path and
`PRUNE_START_FROM = 5`, the start epoch after `reset` is 5, not 0 — the
re-load of the init params overrides the zero that `reset` first sets. -/
theorem reset_start_epoch_counterexample :
    (reset cfgW fsW tP "d" "m").start_epoch = cfgW.PRUNE_START_FROM
    ∧ (reset cfgW fsW tP "d" "m").start_epoch ≠ 0 := by decide

/-- Claim C3 (amended): within one `run`, the init-weights checkpoint
(`dir_prefix/init_weight.pth.tar`) is written at most once: exactly once
when no init-params path is recorded at entry and either
`STORE_PARAM_BEFORE = 0` (written before the loop) or
`STORE_PARAM_BEFORE - 1` is an epoch of `range(start_epoch, EPOCHS)`
(written after that epoch), and otherwise not at all. -/
theorem run_init_weights_write_count (cfg : Config) (sc tl ac : Int → ℚ)
    (s : Trainer) (hbmp : s.best_model_path ≠ s.baseDir) :
    initCount s.baseDir (run cfg sc tl ac s) =
      initCount s.baseDir s +
        (if s.init_params_path = "" ∧
            (cfg.STORE_PARAM_BEFORE = 0 ∨
              cfg.STORE_PARAM_BEFORE - 1 ∈ runEpochs cfg s) then 1
         else 0) := by
  simp only [run]
  by_cases hp : s.init_params_path = ""
  · by_cases h0 : cfg.STORE_PARAM_BEFORE = 0
    · rw [if_pos ⟨hp, h0⟩]
      obtain ⟨_, p2, _, _⟩ := foldl_runStep_nonempty cfg sc tl ac s.baseDir
        (runEpochs cfg (save_init_params cfg s)) (save_init_params cfg s)
        (save_init_params_baseDir cfg s)
        (by rw [save_init_params_bmp]; exact hbmp)
        (by rw [save_init_params_path]
            exact joinPath_ne_empty _ _ (by decide))
      rw [p2, initCount_save_init cfg s.baseDir s rfl,
        if_pos ⟨hp, Or.inl h0⟩]
    · rw [if_neg (fun hc => h0 hc.2)]
      rw [foldl_runStep_empty cfg sc tl ac s.baseDir (runEpochs cfg s) s rfl
        hbmp hp]
      congr 1
      simp [hp, h0]
  · rw [if_neg (fun hc => hp hc.1)]
    obtain ⟨_, p2, _, _⟩ := foldl_runStep_nonempty cfg sc tl ac s.baseDir
      (runEpochs cfg s) s rfl hbmp hp
    rw [p2, if_neg (fun hc => hp hc.1), Nat.add_zero]

/-- Witness for claim C3: with `STORE_PARAM_BEFORE = 0` and no recorded
path, one run writes the init checkpoint exactly once. -/
theorem run_init_weights_write_count_witness :
    t0.best_model_path ≠ t0.baseDir
    ∧ initCount t0.baseDir (run cfgO one one accZ t0) =
        initCount t0.baseDir t0 +
          (if t0.init_params_path = "" ∧
              (cfgO.STORE_PARAM_BEFORE = 0 ∨
                cfgO.STORE_PARAM_BEFORE - 1 ∈ runEpochs cfgO t0) then 1
           else 0) :=
  ⟨by decide, run_init_weights_write_count cfgO one one accZ t0 (by decide)⟩

/-- Claim C3 counterexample: a run under `EPOCHS = 2`,
`STORE_PARAM_BEFORE = 5` writes no checkpoint at all — in particular zero
init-weights checkpoints, not exactly one: epoch `STORE_PARAM_BEFORE - 1 = 4`
is never reached by `range(0, 2)`. -/
theorem run_writes_no_init_checkpoint_counterexample :
    (run cfgZ one one accZ t0).writes = []
    ∧ initCount t0.baseDir (run cfgZ one one accZ t0) = 0 := by decide

/-- Claim C4 (amended): `best_acc` never decreases at any epoch step of the
loop, and after `run` it equals the fold of `max` over the observed test
accuracies started from the pre-run `best_acc` — i.e. the maximum of the
pre-run value and all observed accuracies (which is the maximum observed
accuracy whenever the run starts from a reset state, where `best_acc = 0`
and accuracies are nonnegative). -/
theorem run_best_acc_max (cfg : Config) (sc tl ac : Int → ℚ) (s : Trainer) :
    (run cfg sc tl ac s).best_acc =
      ((runEpochs cfg s).map ac).foldl max s.best_acc
    ∧ ∀ (t : Trainer) (e : Int),
        t.best_acc ≤ (runStep cfg sc tl ac t e).best_acc := by
  constructor
  · simp only [run]
    split
    · rw [foldl_runStep_best_acc, runEpochs_save_init,
        save_init_params_best_acc]
    · rw [foldl_runStep_best_acc]
  · intro t e
    rw [runStep_best_acc]
    exact le_max_right _ _

/-- Claim C4 counterexample: a second `run` (no reset in between) starts
with `best_acc = 80` from the first run; its only observed accuracy is 70,
yet `best_acc` after it is 80, not the maximum observed accuracy 70. -/
theorem run_best_acc_not_max_observed_counterexample :
    (runEpochs cfgW (run cfgW one one acc80 t0)).map acc70 = [(70 : ℚ)]
    ∧ (run cfgW one one acc70 (run cfgW one one acc80 t0)).best_acc = 80
    ∧ (80 : ℚ) ≠ 70 := by decide

/-- Claim C10: once `init_params_path` is non-empty it stays non-empty and
unchanged across `reset`, `run`, `load_params` and `save_best_params`
(`save_init_params` itself records a non-empty path); consequently a later
`reset` re-loads the snapshot (forcing `start_epoch` to `PRUNE_START_FROM`)
and a later `run` writes no further init-weights checkpoint. -/
theorem init_params_path_persists (cfg : Config) (sc tl ac : Int → ℚ)
    (fs : String → Checkpoint) (s : Trainer) (dp md : String)
    (ck : Checkpoint) (acc : ℚ) (e : Int)
    (h : s.init_params_path ≠ "") (hbmp : s.best_model_path ≠ s.baseDir) :
    (reset cfg fs s dp md).init_params_path = s.init_params_path
    ∧ (run cfg sc tl ac s).init_params_path = s.init_params_path
    ∧ (load_params s ck).init_params_path = s.init_params_path
    ∧ (save_best_params s acc e).init_params_path = s.init_params_path
    ∧ (save_init_params cfg s).init_params_path ≠ ""
    ∧ (reset cfg fs s dp md).start_epoch = cfg.PRUNE_START_FROM
    ∧ initCount s.baseDir (run cfg sc tl ac s) = initCount s.baseDir s := by
  have hpre : ¬ (s.init_params_path = "" ∧ cfg.STORE_PARAM_BEFORE = 0) :=
    fun hc => h hc.1
  obtain ⟨p1, p2, _, _⟩ := foldl_runStep_nonempty cfg sc tl ac s.baseDir
    (runEpochs cfg s) s rfl hbmp h
  refine ⟨reset_path cfg fs s dp md, ?_, rfl,
    save_best_params_path s acc e, ?_, ?_, ?_⟩
  · simp only [run]
    rw [if_neg hpre]
    exact p1
  · rw [save_init_params_path]
    exact joinPath_ne_empty _ _ (by decide)
  · rw [reset_of_nonempty cfg fs s dp md h]
  · simp only [run]
    rw [if_neg hpre]
    exact p2

/-- Witness for claim C10 at a concrete recorded path `p`. -/
theorem init_params_path_persists_witness :
    tP.init_params_path ≠ ""
    ∧ tP.best_model_path ≠ tP.baseDir
    ∧ ((reset cfgW fsW tP "d" "m").init_params_path = tP.init_params_path
       ∧ (run cfgW one one accZ tP).init_params_path = tP.init_params_path
       ∧ (load_params tP ckW).init_params_path = tP.init_params_path
       ∧ (save_best_params tP 0 0).init_params_path = tP.init_params_path
       ∧ (save_init_params cfgW tP).init_params_path ≠ ""
       ∧ (reset cfgW fsW tP "d" "m").start_epoch = cfgW.PRUNE_START_FROM
       ∧ initCount tP.baseDir (run cfgW one one accZ tP) =
           initCount tP.baseDir tP) :=
  ⟨by decide, by decide,
   init_params_path_persists cfgW one one accZ fsW tP "d" "m" ckW 0 0
     (by decide) (by decide)⟩

end TrainPy
